import Mathlib

/-!
Shallow embedding of the AI-Chat document-ingestion pipeline.

The definitions below translate the Python sources of the repository:
* `src/app/services/file_processor.py` — the ingestion state machine
  (`ProcessingStatus`, `ProcessingState`, `FileProcessor` methods),
* `src/app/services/conversation_manager.py` — conversation history bounds,
* `src/app/services/qa_pipeline.py` — adaptive chunk-size selection.

External collaborators (the Chroma vector store, document loaders, the
LLM) are modelled as oracles: `Env.db` stands for
`file_manager.file_exists_in_database` and `Env.processOk` for the outcome
of the external extraction/indexing call made by `_process_single_file`.
Uploaded files are represented by their names (the state machine only ever
reads `f.name` from an uploaded file object).
-/

namespace App

/-- Statuses of file processing, from `ProcessingStatus` in
`file_processor.py`. -/
inductive ProcessingStatus where
  | idle
  | starting
  | processing
  | completed
  | cancelled
  | error
deriving DecidableEq

/-- State of file processing, from the `ProcessingState` dataclass.
Default field values mirror the dataclass defaults (with
`files_to_process` defaulting to the empty list via `__post_init__`).
`current_file_index` is a `Nat`: every assignment in the source is `0`,
an increment, a list index, or `max(0, …)`, so it never goes negative.
`progress` is a rational standing in for the Python float. -/
structure ProcessingState where
  status : ProcessingStatus := ProcessingStatus.idle
  current_file_index : Nat := 0
  total_files : Nat := 0
  current_filename : Option String := none
  progress : ℚ := 0
  message : String := ""
  files_to_process : List String := []
deriving DecidableEq

/-- Oracles for the external collaborators of `FileProcessor`:
`db f` is `file_manager.file_exists_in_database(f)` and `processOk f` is
the boolean outcome of the external `process_uploaded_files` call (and of
any exception caught) inside `_process_single_file` for file `f`. -/
structure Env where
  db : String → Bool
  processOk : String → Bool

/-- `FileProcessor.is_processing`: the status is Starting or Processing. -/
def is_processing (s : ProcessingState) : Bool :=
  decide (s.status = ProcessingStatus.starting ∨ s.status = ProcessingStatus.processing)

/-- `FileProcessor.start_processing`: refuse while active; filter out the
uploaded names already in the database; refuse if nothing is left;
otherwise initialize the run.  The strings are the literal messages of the
source (with `get_status_message("starting")` resolved from `config.py`). -/
def start_processing (env : Env) (s : ProcessingState) (uploaded : List String) :
    (Bool × String) × ProcessingState :=
  if is_processing s then ((false, "Processing already in progress"), s)
  else
    let new_files := uploaded.filter (fun n => !env.db n)
    if new_files = [] then
      ((false, "All selected files are already in the database"), s)
    else
      ((true, "Started processing"),
       { s with
          status := ProcessingStatus.starting
          current_file_index := 0
          total_files := new_files.length
          files_to_process := new_files
          progress := 0
          message := "Starting processing..." })

/-- `FileProcessor.cancel_processing`: set status Cancelled, record the
reason, return it.  No guard: it applies in any state. -/
def cancel_processing (s : ProcessingState) (reason : String) :
    String × ProcessingState :=
  (reason, { s with status := ProcessingStatus.cancelled, message := reason })

/-- `FileProcessor._should_process_file`: reject if already in the
database, no longer among the uploaded names, or no longer queued. -/
def should_process_file (env : Env) (s : ProcessingState) (filename : String)
    (uploaded : List String) : Bool :=
  !env.db filename && decide (filename ∈ uploaded)
    && decide (filename ∈ s.files_to_process)

/-- `FileProcessor._process_single_file`: look the file object up by name
among the uploaded files (`False` when absent), then hand it to the
external pipeline, whose outcome (including any caught exception) the
oracle `env.processOk` reports. -/
def process_single_file (env : Env) (filename : String)
    (uploaded : List String) : Bool :=
  if filename ∈ uploaded then env.processOk filename else false

/-- `FileProcessor._skip_current_file`: advance the cursor and record the
reason prefixed by the warning sign. -/
def skip_current_file (s : ProcessingState) (reason : String) :
    String × ProcessingState :=
  (reason,
   { s with
      current_file_index := s.current_file_index + 1
      message := "⚠️ " ++ reason })

/-- `FileProcessor._complete_processing`: set status Completed, force
progress to 1.0, and report the total (message from `config.py`). -/
def complete_processing (s : ProcessingState) : String × ProcessingState :=
  let s1 := { s with
                status := ProcessingStatus.completed
                progress := (1 : ℚ)
                message := "Processing complete" }
  ("Successfully processed " ++ toString s1.total_files ++ " file(s)", s1)

/-- `FileProcessor.process_next_file`, one tick of the machine:
no-op unless active; finalize when the cursor has passed the queue;
otherwise show progress for the file at the cursor, then either skip it or
process it, advancing the cursor either way. -/
def process_next_file (env : Env) (s : ProcessingState)
    (uploaded : List String) : Bool × ProcessingState :=
  if is_processing s then
    if s.files_to_process.length ≤ s.current_file_index then
      (false, (complete_processing s).2)
    else
      let filename := s.files_to_process.getD s.current_file_index ""
      let s1 := { s with
                    status := ProcessingStatus.processing
                    current_filename := some filename
                    progress :=
                      ((s.current_file_index + 1 : Nat) : ℚ) / (s.total_files : ℚ)
                    message :=
                      "Processing " ++ filename ++ "... ("
                        ++ toString (s.current_file_index + 1) ++ "/"
                        ++ toString s.total_files ++ ")" }
      if should_process_file env s1 filename uploaded then
        let success := process_single_file env filename uploaded
        let s2 :=
          if success then { s1 with message := "✅ Processed " ++ filename }
          else { s1 with message := "❌ Failed to process " ++ filename }
        (true, { s2 with current_file_index := s2.current_file_index + 1 })
      else
        (true, (skip_current_file s1 ("Skipped " ++ filename)).2)
  else (false, s)

/-- `FileProcessor.reset`: zero every state field back to Idle. -/
def reset (s : ProcessingState) : ProcessingState :=
  { s with
     status := ProcessingStatus.idle
     current_file_index := 0
     total_files := 0
     current_filename := none
     progress := 0
     message := ""
     files_to_process := [] }

/-- The local `removed_files` of `FileProcessor.update_files_list`: queued
names no longer among the uploaded names. -/
def removed_files (s : ProcessingState) (uploaded : List String) : List String :=
  s.files_to_process.filter (fun f => decide (f ∉ uploaded))

/-- The local `new_files_to_process` of `FileProcessor.update_files_list`:
the order-preserving surviving queue. -/
def new_files_to_process (s : ProcessingState) (uploaded : List String) : List String :=
  s.files_to_process.filter (fun f => decide (f ∈ uploaded))

/-- `FileProcessor.update_files_list`: reconcile the queue with the live
upload set.  Nothing removed: return `None` untouched.  Everything
removed: cancel.  Otherwise install the surviving queue, recompute
`total_files`, and re-locate the cursor — to the surviving position of
`current_filename` when that is a non-empty surviving name (Python
truthiness makes `""` fall through), else clamp it to `max 0 (len - 1)`
when out of bounds. -/
def update_files_list (s : ProcessingState) (uploaded : List String) :
    Option String × ProcessingState :=
  if is_processing s then
    if removed_files s uploaded = [] then (none, s)
    else
      let msg := "Cancelled processing for "
        ++ toString (removed_files s uploaded).length ++ " file(s)"
      if new_files_to_process s uploaded = [] then
        (some msg,
         (cancel_processing s "Processing cancelled - all files removed").2)
      else
        let nf := new_files_to_process s uploaded
        let s1 := { s with files_to_process := nf, total_files := nf.length }
        let s2 :=
          match s.current_filename with
          | some name =>
              if name ≠ "" ∧ name ∈ nf then
                { s1 with current_file_index := nf.indexOf name }
              else if nf.length ≤ s1.current_file_index then
                { s1 with current_file_index := nf.length - 1 }
              else s1
          | none =>
              if nf.length ≤ s1.current_file_index then
                { s1 with current_file_index := nf.length - 1 }
              else s1
        (some msg, s2)
  else (none, s)

/-- A sequence of ticks of `process_next_file`; each list entry supplies
the environment and the live upload set seen by that tick (both may change
between ticks, as they do in the application). -/
def run_ticks : List (Env × List String) → ProcessingState → ProcessingState
  | [], s => s
  | eu :: rest, s => run_ticks rest (process_next_file eu.1 s eu.2).2

/-- An environment where no file is indexed yet and every external
processing call succeeds; used to instantiate theorems at concrete runs. -/
def env0 : Env := ⟨fun _ => false, fun _ => true⟩

lemma is_processing_starting {s : ProcessingState}
    (h : s.status = ProcessingStatus.starting) : is_processing s = true := by
  simp [is_processing, h]

lemma is_processing_processing {s : ProcessingState}
    (h : s.status = ProcessingStatus.processing) : is_processing s = true := by
  simp [is_processing, h]

lemma process_next_file_inactive (env : Env) (s : ProcessingState)
    (u : List String) (h : is_processing s = false) :
    process_next_file env s u = (false, s) := by
  simp [process_next_file, h]

lemma process_next_file_finalize (env : Env) (s : ProcessingState)
    (u : List String) (ha : is_processing s = true)
    (hge : s.files_to_process.length ≤ s.current_file_index) :
    process_next_file env s u =
      (false,
       { s with
          status := ProcessingStatus.completed
          progress := (1 : ℚ)
          message := "Processing complete" }) := by
  simp [process_next_file, ha, hge, complete_processing]

lemma process_next_file_step (env : Env) (s : ProcessingState)
    (u : List String) (ha : is_processing s = true)
    (hlt : s.current_file_index < s.files_to_process.length) :
    (process_next_file env s u).1 = true
    ∧ (process_next_file env s u).2.current_file_index = s.current_file_index + 1
    ∧ (process_next_file env s u).2.status = ProcessingStatus.processing
    ∧ (process_next_file env s u).2.files_to_process = s.files_to_process
    ∧ (process_next_file env s u).2.total_files = s.total_files := by
  have hnle : ¬ s.files_to_process.length ≤ s.current_file_index := by omega
  simp only [process_next_file, ha, if_true, hnle, if_false]
  split
  · cases process_single_file env (s.files_to_process.getD s.current_file_index "") u <;> simp
  · simp [skip_current_file]

lemma run_ticks_active (l : List (Env × List String)) :
    ∀ s : ProcessingState, is_processing s = true →
      s.current_file_index + l.length ≤ s.files_to_process.length →
      (run_ticks l s).current_file_index = s.current_file_index + l.length
      ∧ (run_ticks l s).files_to_process = s.files_to_process
      ∧ (run_ticks l s).total_files = s.total_files
      ∧ is_processing (run_ticks l s) = true
      ∧ (l ≠ [] → (run_ticks l s).status = ProcessingStatus.processing) := by
  induction l with
  | nil => intro s ha _; simpa [run_ticks] using ha
  | cons eu rest ih =>
      intro s ha hle
      have hlt : s.current_file_index < s.files_to_process.length := by
        simp at hle; omega
      obtain ⟨-, hidx, hst, hq, ht⟩ := process_next_file_step eu.1 s eu.2 ha hlt
      set s1 := (process_next_file eu.1 s eu.2).2 with hs1
      have ha1 : is_processing s1 = true := is_processing_processing hst
      have hle1 : s1.current_file_index + rest.length ≤ s1.files_to_process.length := by
        rw [hidx, hq]; simp at hle; omega
      obtain ⟨i1, i2, i3, i4, i5⟩ := ih s1 ha1 hle1
      refine ⟨?_, ?_, ?_, ?_, ?_⟩
      · simp only [run_ticks, ← hs1, i1, hidx, hq, List.length_cons]; omega
      · simp only [run_ticks, ← hs1, i2, hq]
      · simp only [run_ticks, ← hs1, i3, ht]
      · simp only [run_ticks, ← hs1, i4]
      · intro _
        rcases eq_or_ne rest [] with hr | hr
        · subst hr; simpa [run_ticks, ← hs1] using hst
        · simpa [run_ticks, ← hs1] using i5 hr

lemma run_ticks_append (l1 l2 : List (Env × List String)) (s : ProcessingState) :
    run_ticks (l1 ++ l2) s = run_ticks l2 (run_ticks l1 s) := by
  induction l1 generalizing s with
  | nil => simp [run_ticks]
  | cons eu rest ih => simp [run_ticks, ih]

/-- C1: a run started with `n = total_files` files needs `n + 1` ticks of
`process_next_file`, not `n`, to reach Completed: each of the first `n`
ticks handles exactly one file (the cursor advances by one per tick, the
status stays Processing, no tick is skipped), and one further tick
observes that the cursor has reached the end of the queue and finalizes
the run to Completed. -/
theorem C1_ticks_to_complete (s : ProcessingState)
    (inputs finputs : List (Env × List String))
    (hst : s.status = ProcessingStatus.starting)
    (hidx : s.current_file_index = 0)
    (hpos : 0 < s.files_to_process.length)
    (hlen : inputs.length = s.files_to_process.length)
    (hflen : finputs.length = s.files_to_process.length + 1) :
    (run_ticks inputs s).status = ProcessingStatus.processing
    ∧ (run_ticks inputs s).current_file_index = s.files_to_process.length
    ∧ (run_ticks inputs s).status ≠ ProcessingStatus.completed
    ∧ (run_ticks finputs s).status = ProcessingStatus.completed := by
  have ha := is_processing_starting hst
  have hin : inputs ≠ [] := by
    intro h; rw [h] at hlen; simp at hlen; omega
  obtain ⟨i1, i2, i3, i4, i5⟩ := run_ticks_active inputs s ha (by omega)
  refine ⟨i5 hin, by omega, by simp [i5 hin], ?_⟩
  have hsplit : finputs =
      finputs.take s.files_to_process.length
        ++ finputs.drop s.files_to_process.length :=
    (List.take_append_drop _ _).symm
  have hdl : (finputs.drop s.files_to_process.length).length = 1 := by
    rw [List.length_drop]; omega
  obtain ⟨eu, heu⟩ := List.length_eq_one.mp hdl
  obtain ⟨j1, j2, j3, j4, j5⟩ :=
    run_ticks_active (finputs.take s.files_to_process.length) s ha
      (by rw [List.length_take]; omega)
  set s1 := run_ticks (finputs.take s.files_to_process.length) s with hs1
  have htk : (finputs.take s.files_to_process.length).length
      = s.files_to_process.length := by
    rw [List.length_take]; omega
  have hge : s1.files_to_process.length ≤ s1.current_file_index := by
    rw [j2, j1, hidx, htk]; omega
  have hrew : run_ticks finputs s = (process_next_file eu.1 s1 eu.2).2 := by
    conv_lhs => rw [hsplit, heu]
    rw [run_ticks_append, ← hs1]
    simp [run_ticks]
  rw [hrew, process_next_file_finalize eu.1 s1 eu.2 j4 hge]

/-- C1 counterexample: with a single fresh file, one tick after a
successful start does not reach Completed — the claim that
`total_files` ticks suffice fails at `n = 1`. -/
theorem C1_counterexample :
    (start_processing env0 {} ["a.txt"]).2.status = ProcessingStatus.starting
    ∧ (start_processing env0 {} ["a.txt"]).2.total_files = 1
    ∧ (run_ticks [(env0, ["a.txt"])]
        (start_processing env0 {} ["a.txt"]).2).status
      ≠ ProcessingStatus.completed := by decide

theorem C1_ticks_witness :
    (run_ticks [(env0, ["a.txt"])]
      { status := ProcessingStatus.starting, current_file_index := 0,
        total_files := 1, files_to_process := ["a.txt"] }).status
        = ProcessingStatus.processing
    ∧ (run_ticks [(env0, ["a.txt"])]
        { status := ProcessingStatus.starting, current_file_index := 0,
          total_files := 1, files_to_process := ["a.txt"] }).current_file_index
        = ({ status := ProcessingStatus.starting, current_file_index := 0,
             total_files := 1,
             files_to_process := ["a.txt"] } : ProcessingState).files_to_process.length
    ∧ (run_ticks [(env0, ["a.txt"])]
        { status := ProcessingStatus.starting, current_file_index := 0,
          total_files := 1, files_to_process := ["a.txt"] }).status
        ≠ ProcessingStatus.completed
    ∧ (run_ticks [(env0, ["a.txt"]), (env0, ["a.txt"])]
        { status := ProcessingStatus.starting, current_file_index := 0,
          total_files := 1, files_to_process := ["a.txt"] }).status
        = ProcessingStatus.completed :=
  C1_ticks_to_complete
    { status := ProcessingStatus.starting, current_file_index := 0,
      total_files := 1, files_to_process := ["a.txt"] }
    [(env0, ["a.txt"])] [(env0, ["a.txt"]), (env0, ["a.txt"])]
    rfl rfl (by decide) (by decide) (by decide)

/-- C2: during an active run, `update_files_list` with the live upload
set reconciles the queue.  If every queued name was removed (from a
non-empty queue) the status becomes Cancelled.  If only a subset was
removed, the queue becomes the order-preserving list of surviving names,
`total_files` becomes its length, the status is untouched, and the cursor
is re-located: when the current file (the non-empty `current_filename`)
survives, the cursor points at its position in the new queue; otherwise
the cursor is clamped within the new queue bounds
(`min cursor (length - 1)`). -/
theorem C2_update_reconcile (s : ProcessingState) (u : List String)
    (ha : is_processing s = true) :
    (s.files_to_process ≠ [] → (∀ f ∈ s.files_to_process, f ∉ u) →
      (update_files_list s u).2.status = ProcessingStatus.cancelled)
    ∧ (∀ name, (∃ f ∈ s.files_to_process, f ∉ u) →
        new_files_to_process s u ≠ [] →
        s.current_filename = some name → name ≠ "" →
        (update_files_list s u).2.files_to_process = new_files_to_process s u
        ∧ (update_files_list s u).2.total_files
            = (new_files_to_process s u).length
        ∧ (update_files_list s u).2.status = s.status
        ∧ (name ∈ new_files_to_process s u →
            (update_files_list s u).2.current_file_index
              = (new_files_to_process s u).indexOf name)
        ∧ (name ∉ new_files_to_process s u →
            (update_files_list s u).2.current_file_index
              = min s.current_file_index ((new_files_to_process s u).length - 1))) := by
  constructor
  · intro hne hall
    have hrem : removed_files s u = s.files_to_process := by
      simp only [removed_files, List.filter_eq_self]
      intro f hf; simpa using hall f hf
    have hnf : new_files_to_process s u = [] := by
      simp only [new_files_to_process, List.filter_eq_nil_iff]
      intro f hf; simpa using hall f hf
    have hremne : removed_files s u ≠ [] := by rw [hrem]; exact hne
    simp [update_files_list, ha, hremne, hnf, cancel_processing]
  · intro name hex hnf hcur hname
    obtain ⟨f, hf, hfu⟩ := hex
    have hremne : removed_files s u ≠ [] := by
      have : f ∈ removed_files s u := by
        simp only [removed_files, List.mem_filter]
        exact ⟨hf, by simpa using hfu⟩
      exact List.ne_nil_of_mem this
    have hlen1 : 1 ≤ (new_files_to_process s u).length :=
      List.length_pos.mpr hnf
    by_cases hmem : name ∈ new_files_to_process s u
    · have hres : (update_files_list s u).2 =
          { s with
             files_to_process := new_files_to_process s u
             total_files := (new_files_to_process s u).length
             current_file_index := (new_files_to_process s u).indexOf name } := by
        simp [update_files_list, ha, hremne, hnf, hcur, hname, hmem]
      exact ⟨by simp [hres], by simp [hres], by simp [hres],
        fun _ => by simp [hres], fun hc => absurd hmem hc⟩
    · by_cases hclamp : (new_files_to_process s u).length ≤ s.current_file_index
      · have hres : (update_files_list s u).2 =
            { s with
               files_to_process := new_files_to_process s u
               total_files := (new_files_to_process s u).length
               current_file_index := (new_files_to_process s u).length - 1 } := by
          simp [update_files_list, ha, hremne, hnf, hcur, hmem, hclamp]
        refine ⟨by simp [hres], by simp [hres], by simp [hres],
          fun hm => absurd hm hmem, fun _ => ?_⟩
        simp only [hres]
        omega
      · have hres : (update_files_list s u).2 =
            { s with
               files_to_process := new_files_to_process s u
               total_files := (new_files_to_process s u).length } := by
          simp [update_files_list, ha, hremne, hnf, hcur, hmem, hclamp]
        refine ⟨by simp [hres], by simp [hres], by simp [hres],
          fun hm => absurd hm hmem, fun _ => ?_⟩
        simp only [hres]
        omega

theorem C2_update_reconcile_witness :
    ((update_files_list
        { status := ProcessingStatus.processing, current_file_index := 2,
          total_files := 3, current_filename := some "b",
          files_to_process := ["a", "b", "c"] } ["a", "b"]).2.files_to_process
      = new_files_to_process
          { status := ProcessingStatus.processing, current_file_index := 2,
            total_files := 3, current_filename := some "b",
            files_to_process := ["a", "b", "c"] } ["a", "b"]
    ∧ (update_files_list
        { status := ProcessingStatus.processing, current_file_index := 2,
          total_files := 3, current_filename := some "b",
          files_to_process := ["a", "b", "c"] } ["a", "b"]).2.total_files
      = (new_files_to_process
          { status := ProcessingStatus.processing, current_file_index := 2,
            total_files := 3, current_filename := some "b",
            files_to_process := ["a", "b", "c"] } ["a", "b"]).length
    ∧ (update_files_list
        { status := ProcessingStatus.processing, current_file_index := 2,
          total_files := 3, current_filename := some "b",
          files_to_process := ["a", "b", "c"] } ["a", "b"]).2.status
      = ProcessingStatus.processing
    ∧ ("b" ∈ new_files_to_process
          { status := ProcessingStatus.processing, current_file_index := 2,
            total_files := 3, current_filename := some "b",
            files_to_process := ["a", "b", "c"] } ["a", "b"] →
        (update_files_list
          { status := ProcessingStatus.processing, current_file_index := 2,
            total_files := 3, current_filename := some "b",
            files_to_process := ["a", "b", "c"] } ["a", "b"]).2.current_file_index
          = (new_files_to_process
              { status := ProcessingStatus.processing, current_file_index := 2,
                total_files := 3, current_filename := some "b",
                files_to_process := ["a", "b", "c"] } ["a", "b"]).indexOf "b")
    ∧ ("b" ∉ new_files_to_process
          { status := ProcessingStatus.processing, current_file_index := 2,
            total_files := 3, current_filename := some "b",
            files_to_process := ["a", "b", "c"] } ["a", "b"] →
        (update_files_list
          { status := ProcessingStatus.processing, current_file_index := 2,
            total_files := 3, current_filename := some "b",
            files_to_process := ["a", "b", "c"] } ["a", "b"]).2.current_file_index
          = min 2 ((new_files_to_process
              { status := ProcessingStatus.processing, current_file_index := 2,
                total_files := 3, current_filename := some "b",
                files_to_process := ["a", "b", "c"] } ["a", "b"]).length - 1)))
    ∧ (update_files_list
        { status := ProcessingStatus.processing, current_file_index := 1,
          total_files := 2, current_filename := some "a",
          files_to_process := ["a", "b"] } []).2.status
      = ProcessingStatus.cancelled :=
  ⟨(C2_update_reconcile
      { status := ProcessingStatus.processing, current_file_index := 2,
        total_files := 3, current_filename := some "b",
        files_to_process := ["a", "b", "c"] } ["a", "b"] (by decide)).2 "b"
      (by decide) (by decide) rfl (by decide),
   (C2_update_reconcile
      { status := ProcessingStatus.processing, current_file_index := 1,
        total_files := 2, current_filename := some "a",
        files_to_process := ["a", "b"] } [] (by decide)).1
      (by decide) (by decide)⟩

/-- C3: when no run is active, `start_processing` succeeds and enters
Starting (cursor 0, progress 0, queue = the uploaded names not already
indexed) exactly when at least one uploaded file is not already in the
database; otherwise (empty set after filtering, in particular every file
already indexed) it is declined with a reason string and the state is
unchanged. -/
theorem C3_start_processing (env : Env) (s : ProcessingState)
    (u : List String) (h : is_processing s = false) :
    (u.filter (fun n => !env.db n) ≠ [] →
      start_processing env s u =
        ((true, "Started processing"),
         { s with
            status := ProcessingStatus.starting
            current_file_index := 0
            total_files := (u.filter (fun n => !env.db n)).length
            files_to_process := u.filter (fun n => !env.db n)
            progress := 0
            message := "Starting processing..." }))
    ∧ (u.filter (fun n => !env.db n) = [] →
      start_processing env s u =
        ((false, "All selected files are already in the database"), s)) := by
  constructor
  · intro hne; simp [start_processing, h, hne]
  · intro he; simp [start_processing, h, he]

theorem C3_start_processing_witness :
    (["a.txt"].filter (fun n => !env0.db n) ≠ [] →
      start_processing env0 {} ["a.txt"] =
        ((true, "Started processing"),
         { ({} : ProcessingState) with
            status := ProcessingStatus.starting
            current_file_index := 0
            total_files := (["a.txt"].filter (fun n => !env0.db n)).length
            files_to_process := ["a.txt"].filter (fun n => !env0.db n)
            progress := 0
            message := "Starting processing..." }))
    ∧ (["a.txt"].filter (fun n => !env0.db n) = [] →
      start_processing env0 {} ["a.txt"] =
        ((false, "All selected files are already in the database"), {})) :=
  C3_start_processing env0 {} ["a.txt"] (by decide)

/-- C8: cancelling while Processing at any cursor position `i < total`
moves the status to Cancelled, returns the reason, and leaves the cursor,
the queue, `total_files` and `progress` exactly as they were — only the
status and the message change. -/
theorem C8_cancel_frame (s : ProcessingState) (r : String)
    (hst : s.status = ProcessingStatus.processing)
    (hlt : s.current_file_index < s.total_files) :
    (cancel_processing s r).2.status = ProcessingStatus.cancelled
    ∧ (cancel_processing s r).1 = r
    ∧ (cancel_processing s r).2.current_file_index = s.current_file_index
    ∧ (cancel_processing s r).2.files_to_process = s.files_to_process
    ∧ (cancel_processing s r).2.total_files = s.total_files
    ∧ (cancel_processing s r).2.progress = s.progress
    ∧ (cancel_processing s r).2.message = r := by
  simp [cancel_processing]

theorem C8_cancel_frame_witness :
    (cancel_processing
      { status := ProcessingStatus.processing, current_file_index := 1,
        total_files := 2, files_to_process := ["a", "b"] } "stop").2.status
        = ProcessingStatus.cancelled
    ∧ (cancel_processing
        { status := ProcessingStatus.processing, current_file_index := 1,
          total_files := 2, files_to_process := ["a", "b"] } "stop").1 = "stop"
    ∧ (cancel_processing
        { status := ProcessingStatus.processing, current_file_index := 1,
          total_files := 2, files_to_process := ["a", "b"] } "stop").2.current_file_index
        = ({ status := ProcessingStatus.processing, current_file_index := 1,
             total_files := 2,
             files_to_process := ["a", "b"] } : ProcessingState).current_file_index
    ∧ (cancel_processing
        { status := ProcessingStatus.processing, current_file_index := 1,
          total_files := 2, files_to_process := ["a", "b"] } "stop").2.files_to_process
        = ({ status := ProcessingStatus.processing, current_file_index := 1,
             total_files := 2,
             files_to_process := ["a", "b"] } : ProcessingState).files_to_process
    ∧ (cancel_processing
        { status := ProcessingStatus.processing, current_file_index := 1,
          total_files := 2, files_to_process := ["a", "b"] } "stop").2.total_files
        = ({ status := ProcessingStatus.processing, current_file_index := 1,
             total_files := 2,
             files_to_process := ["a", "b"] } : ProcessingState).total_files
    ∧ (cancel_processing
        { status := ProcessingStatus.processing, current_file_index := 1,
          total_files := 2, files_to_process := ["a", "b"] } "stop").2.progress
        = ({ status := ProcessingStatus.processing, current_file_index := 1,
             total_files := 2,
             files_to_process := ["a", "b"] } : ProcessingState).progress
    ∧ (cancel_processing
        { status := ProcessingStatus.processing, current_file_index := 1,
          total_files := 2, files_to_process := ["a", "b"] } "stop").2.message
        = "stop" :=
  C8_cancel_frame
    { status := ProcessingStatus.processing, current_file_index := 1,
      total_files := 2, files_to_process := ["a", "b"] } "stop" rfl (by decide)

/-- C9: a tick in any non-active status (Idle, Completed, Cancelled,
Error) returns the nothing-to-do signal `false` and leaves the state —
in particular `current_file_index` — completely unchanged. -/
theorem C9_tick_inactive (env : Env) (s : ProcessingState) (u : List String)
    (h : s.status = ProcessingStatus.idle ∨ s.status = ProcessingStatus.completed
       ∨ s.status = ProcessingStatus.cancelled ∨ s.status = ProcessingStatus.error) :
    process_next_file env s u = (false, s) := by
  have hf : is_processing s = false := by
    rcases h with h | h | h | h <;> simp [is_processing, h]
  exact process_next_file_inactive env s u hf

theorem C9_tick_inactive_witness :
    process_next_file env0
      { status := ProcessingStatus.completed, current_file_index := 2,
        total_files := 2, progress := 1, files_to_process := ["a", "b"] }
      ["a", "b"]
      = (false,
         { status := ProcessingStatus.completed, current_file_index := 2,
           total_files := 2, progress := 1, files_to_process := ["a", "b"] }) :=
  C9_tick_inactive env0
    { status := ProcessingStatus.completed, current_file_index := 2,
      total_files := 2, progress := 1, files_to_process := ["a", "b"] }
    ["a", "b"] (Or.inr (Or.inl rfl))

/-- C10: during an active run, when every queued name is still present in
the live upload set (in particular when files were only added mid-run),
`update_files_list` returns `none` and leaves the entire state — queue,
`total_files`, cursor, status and progress — unchanged; newly added files
are not incorporated into the running queue. -/
theorem C10_no_removal_noop (s : ProcessingState) (u : List String)
    (ha : is_processing s = true)
    (hall : ∀ f ∈ s.files_to_process, f ∈ u) :
    update_files_list s u = (none, s) := by
  have hrem : removed_files s u = [] := by
    simp only [removed_files, List.filter_eq_nil_iff]
    intro f hf
    simpa using hall f hf
  simp [update_files_list, ha, hrem]

theorem C10_no_removal_noop_witness :
    update_files_list
      { status := ProcessingStatus.processing, current_file_index := 1,
        total_files := 2, current_filename := some "a",
        files_to_process := ["a", "b"] }
      ["a", "b", "added.txt"]
      = (none,
         { status := ProcessingStatus.processing, current_file_index := 1,
           total_files := 2, current_filename := some "a",
           files_to_process := ["a", "b"] }) :=
  C10_no_removal_noop
    { status := ProcessingStatus.processing, current_file_index := 1,
      total_files := 2, current_filename := some "a",
      files_to_process := ["a", "b"] }
    ["a", "b", "added.txt"] (by decide) (by decide)

/-- C4 (amended): when the external extraction/indexing of the file at
the cursor fails (the source catches the exception and reports `False`),
the machine stays in Processing — the Error status is never entered by
`process_next_file` from a non-Error state — records the failure in
`message`, still advances the cursor, and keeps returning `true` so the
batch continues with the sibling files. -/
theorem C4_failure_isolated (env : Env) (s : ProcessingState) (u : List String)
    (filename : String)
    (hst : s.status = ProcessingStatus.processing)
    (hlt : s.current_file_index < s.files_to_process.length)
    (hfn : s.files_to_process.getD s.current_file_index "" = filename)
    (hdb : env.db filename = false)
    (hmem : filename ∈ u)
    (hfail : env.processOk filename = false) :
    (process_next_file env s u).1 = true
    ∧ (process_next_file env s u).2.status = ProcessingStatus.processing
    ∧ (process_next_file env s u).2.status ≠ ProcessingStatus.error
    ∧ (process_next_file env s u).2.current_file_index = s.current_file_index + 1
    ∧ (process_next_file env s u).2.message = "❌ Failed to process " ++ filename
    ∧ (∀ (e : Env) (t : ProcessingState) (v : List String),
        (process_next_file e t v).2.status = ProcessingStatus.error →
        t.status = ProcessingStatus.error) := by
  have ha : is_processing s = true := is_processing_processing hst
  have hnle : ¬ s.files_to_process.length ≤ s.current_file_index := by omega
  have hfn2 : s.files_to_process[s.current_file_index]?.getD "" = filename := by
    rw [← List.getD_eq_getElem?_getD]; exact hfn
  have hq : filename ∈ s.files_to_process := by
    rw [← hfn, List.getD_eq_getElem _ _ hlt]
    exact List.getElem_mem hlt
  refine ⟨?_, ?_, ?_, ?_, ?_, ?_⟩
  · simp [process_next_file, ha, hnle, should_process_file, process_single_file,
      hfn2, hdb, hmem, hfail, hq]
  · simp [process_next_file, ha, hnle, should_process_file, process_single_file,
      hfn2, hdb, hmem, hfail, hq]
  · simp [process_next_file, ha, hnle, should_process_file, process_single_file,
      hfn2, hdb, hmem, hfail, hq]
  · simp [process_next_file, ha, hnle, should_process_file, process_single_file,
      hfn2, hdb, hmem, hfail, hq]
  · simp [process_next_file, ha, hnle, should_process_file, process_single_file,
      hfn2, hdb, hmem, hfail, hq]
  · intro e t v herr
    by_cases hat : is_processing t = true
    · by_cases hge : t.files_to_process.length ≤ t.current_file_index
      · rw [process_next_file_finalize e t v hat hge] at herr
        simp at herr
      · obtain ⟨-, -, hstatus, -, -⟩ :=
          process_next_file_step e t v hat (by omega)
        rw [hstatus] at herr
        simp at herr
    · rw [process_next_file_inactive e t v (by simpa using hat)] at herr
      exact herr

/-- C4 counterexample: at a concrete Processing state whose single file
fails to process, the status after the tick is Processing, not Error —
the Error status is not what the failing file produces. -/
theorem C4_no_error_status :
    (process_next_file ⟨fun _ => false, fun _ => false⟩
      { status := ProcessingStatus.processing, current_file_index := 0,
        total_files := 1, current_filename := some "a.txt",
        files_to_process := ["a.txt"] } ["a.txt"]).2.status
      = ProcessingStatus.processing
    ∧ (process_next_file ⟨fun _ => false, fun _ => false⟩
        { status := ProcessingStatus.processing, current_file_index := 0,
          total_files := 1, current_filename := some "a.txt",
          files_to_process := ["a.txt"] } ["a.txt"]).2.status
      ≠ ProcessingStatus.error
    ∧ (process_next_file ⟨fun _ => false, fun _ => false⟩
        { status := ProcessingStatus.processing, current_file_index := 0,
          total_files := 1, current_filename := some "a.txt",
          files_to_process := ["a.txt"] } ["a.txt"]).2.message
      = "❌ Failed to process a.txt" := by decide

theorem C4_failure_isolated_witness :
    (process_next_file ⟨fun _ => false, fun _ => false⟩
      { status := ProcessingStatus.processing, current_file_index := 0,
        total_files := 2, current_filename := some "a.txt",
        files_to_process := ["a.txt", "b.txt"] } ["a.txt", "b.txt"]).1 = true
    ∧ (process_next_file ⟨fun _ => false, fun _ => false⟩
        { status := ProcessingStatus.processing, current_file_index := 0,
          total_files := 2, current_filename := some "a.txt",
          files_to_process := ["a.txt", "b.txt"] } ["a.txt", "b.txt"]).2.status
      = ProcessingStatus.processing
    ∧ (process_next_file ⟨fun _ => false, fun _ => false⟩
        { status := ProcessingStatus.processing, current_file_index := 0,
          total_files := 2, current_filename := some "a.txt",
          files_to_process := ["a.txt", "b.txt"] } ["a.txt", "b.txt"]).2.status
      ≠ ProcessingStatus.error
    ∧ (process_next_file ⟨fun _ => false, fun _ => false⟩
        { status := ProcessingStatus.processing, current_file_index := 0,
          total_files := 2, current_filename := some "a.txt",
          files_to_process := ["a.txt", "b.txt"] } ["a.txt", "b.txt"]).2.current_file_index
      = ({ status := ProcessingStatus.processing, current_file_index := 0,
           total_files := 2, current_filename := some "a.txt",
           files_to_process := ["a.txt", "b.txt"] } : ProcessingState).current_file_index + 1
    ∧ (process_next_file ⟨fun _ => false, fun _ => false⟩
        { status := ProcessingStatus.processing, current_file_index := 0,
          total_files := 2, current_filename := some "a.txt",
          files_to_process := ["a.txt", "b.txt"] } ["a.txt", "b.txt"]).2.message
      = "❌ Failed to process " ++ "a.txt"
    ∧ (∀ (e : Env) (t : ProcessingState) (v : List String),
        (process_next_file e t v).2.status = ProcessingStatus.error →
        t.status = ProcessingStatus.error) :=
  C4_failure_isolated ⟨fun _ => false, fun _ => false⟩
    { status := ProcessingStatus.processing, current_file_index := 0,
      total_files := 2, current_filename := some "a.txt",
      files_to_process := ["a.txt", "b.txt"] } ["a.txt", "b.txt"] "a.txt"
    rfl (by decide) rfl rfl (by decide) rfl

/-- States reachable from the freshly created `ProcessingState()` by the
public operations of `FileProcessor`, each invoked with arbitrary
arguments and an arbitrary environment (the database and the external
processing outcomes may change between operations). -/
inductive Reachable : ProcessingState → Prop
  | init : Reachable {}
  | start (env : Env) (u : List String) {s : ProcessingState} :
      Reachable s → Reachable (start_processing env s u).2
  | tick (env : Env) (u : List String) {s : ProcessingState} :
      Reachable s → Reachable (process_next_file env s u).2
  | cancel (r : String) {s : ProcessingState} :
      Reachable s → Reachable (cancel_processing s r).2
  | update (u : List String) {s : ProcessingState} :
      Reachable s → Reachable (update_files_list s u).2
  | reset_op {s : ProcessingState} :
      Reachable s → Reachable (reset s)

/-- The inductive strengthening of the C5 invariant: the cursor bound and
the queue-length agreement are maintained through Starting as well as
Processing, and Completed pins the progress at 1.0. -/
def StateInv (s : ProcessingState) : Prop :=
  ((s.status = ProcessingStatus.starting ∨ s.status = ProcessingStatus.processing) →
    s.current_file_index ≤ s.total_files
    ∧ s.total_files = s.files_to_process.length)
  ∧ (s.status = ProcessingStatus.completed → s.progress = 1)

lemma StateInv_init : StateInv {} := by
  constructor <;> intro hc <;> simp_all

lemma StateInv_start (env : Env) (u : List String) {s : ProcessingState}
    (h : StateInv s) : StateInv (start_processing env s u).2 := by
  cases hb : is_processing s with
  | true => simpa [start_processing, hb] using h
  | false =>
    rcases eq_or_ne (u.filter (fun n => !env.db n)) [] with he | he
    · simpa [start_processing, hb, he] using h
    · constructor
      · intro _
        constructor
        · simp [start_processing, hb, he]
        · simp [start_processing, hb, he]
      · intro hc
        simp [start_processing, hb, he] at hc

lemma StateInv_tick (env : Env) (u : List String) {s : ProcessingState}
    (h : StateInv s) : StateInv (process_next_file env s u).2 := by
  cases hb : is_processing s with
  | false => simpa [process_next_file_inactive env s u hb] using h
  | true =>
    by_cases hge : s.files_to_process.length ≤ s.current_file_index
    · rw [process_next_file_finalize env s u hb hge]
      constructor
      · intro hc; rcases hc with hc | hc <;> simp at hc
      · intro _; rfl
    · obtain ⟨-, hidx, hst, hq, ht⟩ :=
        process_next_file_step env s u hb (by omega)
      have hss : s.status = ProcessingStatus.starting
          ∨ s.status = ProcessingStatus.processing := by
        simpa [is_processing] using hb
      obtain ⟨h1, h2⟩ := h.1 hss
      constructor
      · intro _
        refine ⟨?_, ?_⟩
        · rw [hidx, ht]; omega
        · rw [ht, hq]; exact h2
      · intro hc; rw [hst] at hc; simp at hc

lemma StateInv_cancel (r : String) {s : ProcessingState}
    (_ : StateInv s) : StateInv (cancel_processing s r).2 := by
  constructor
  · intro hc; rcases hc with hc | hc <;> simp [cancel_processing] at hc
  · intro hc; simp [cancel_processing] at hc

lemma StateInv_reset {s : ProcessingState}
    (_ : StateInv s) : StateInv (reset s) := by
  constructor
  · intro _; simp [reset]
  · intro hc; simp [reset] at hc

lemma StateInv_update (u : List String) {s : ProcessingState}
    (h : StateInv s) : StateInv (update_files_list s u).2 := by
  cases hb : is_processing s with
  | false => simpa [update_files_list, hb] using h
  | true =>
    rcases eq_or_ne (removed_files s u) [] with hr | hr
    · simpa [update_files_list, hb, hr] using h
    · rcases eq_or_ne (new_files_to_process s u) [] with hn | hn
      · constructor
        · intro hc
          rcases hc with hc | hc <;>
            simp [update_files_list, hb, hr, hn, cancel_processing] at hc
        · intro hc
          simp [update_files_list, hb, hr, hn, cancel_processing] at hc
      · have hss : s.status = ProcessingStatus.starting
            ∨ s.status = ProcessingStatus.processing := by
          simpa [is_processing] using hb
        have hlen1 : 1 ≤ (new_files_to_process s u).length :=
          List.length_pos.mpr hn
        have hnotc : ¬ s.status = ProcessingStatus.completed := by
          rcases hss with h' | h' <;> simp [h']
        cases hcf : s.current_filename with
        | none =>
          by_cases hcl : (new_files_to_process s u).length ≤ s.current_file_index
          · have hres : (update_files_list s u).2 =
                { s with
                   files_to_process := new_files_to_process s u
                   total_files := (new_files_to_process s u).length
                   current_file_index := (new_files_to_process s u).length - 1 } := by
              simp [update_files_list, hb, hr, hn, hcf, hcl]
            rw [hres]
            exact ⟨fun _ => ⟨Nat.sub_le _ _, rfl⟩, fun hc => absurd hc hnotc⟩
          · have hres : (update_files_list s u).2 =
                { s with
                   files_to_process := new_files_to_process s u
                   total_files := (new_files_to_process s u).length } := by
              simp [update_files_list, hb, hr, hn, hcf, hcl]
            rw [hres]
            exact ⟨fun _ => ⟨le_of_not_le hcl, rfl⟩, fun hc => absurd hc hnotc⟩
        | some name =>
          by_cases hc1 : name ≠ "" ∧ name ∈ new_files_to_process s u
          · have hres : (update_files_list s u).2 =
                { s with
                   files_to_process := new_files_to_process s u
                   total_files := (new_files_to_process s u).length
                   current_file_index := (new_files_to_process s u).indexOf name } := by
              simp [update_files_list, hb, hr, hn, hcf, hc1.1, hc1.2]
            rw [hres]
            refine ⟨fun _ => ⟨?_, rfl⟩, fun hc => absurd hc hnotc⟩
            exact le_of_lt (List.indexOf_lt_length.mpr hc1.2)
          · by_cases hcl : (new_files_to_process s u).length ≤ s.current_file_index
            · have hres : (update_files_list s u).2 =
                  { s with
                     files_to_process := new_files_to_process s u
                     total_files := (new_files_to_process s u).length
                     current_file_index := (new_files_to_process s u).length - 1 } := by
                simp [update_files_list, hb, hr, hn, hcf, hc1, hcl]
              rw [hres]
              exact ⟨fun _ => ⟨Nat.sub_le _ _, rfl⟩, fun hc => absurd hc hnotc⟩
            · have hres : (update_files_list s u).2 =
                  { s with
                     files_to_process := new_files_to_process s u
                     total_files := (new_files_to_process s u).length } := by
                simp [update_files_list, hb, hr, hn, hcf, hc1, hcl]
              rw [hres]
              exact ⟨fun _ => ⟨le_of_not_le hcl, rfl⟩, fun hc => absurd hc hnotc⟩

lemma StateInv_reachable {s : ProcessingState} (h : Reachable s) : StateInv s := by
  induction h with
  | init => exact StateInv_init
  | start env u _ ih => exact StateInv_start env u ih
  | tick env u _ ih => exact StateInv_tick env u ih
  | cancel r _ ih => exact StateInv_cancel r ih
  | update u _ ih => exact StateInv_update u ih
  | reset_op _ ih => exact StateInv_reset ih

/-- C5: in every state reachable by the operations of the ingestion state
machine, whenever the status is Processing the cursor satisfies
`0 ≤ current_file_index ≤ total_files = length files_to_process` (the
lower bound holds by the `Nat` representation), and whenever the status is
Completed the progress equals 1.0. -/
theorem C5_processing_invariant (s : ProcessingState) (h : Reachable s) :
    (s.status = ProcessingStatus.processing →
      s.current_file_index ≤ s.total_files
      ∧ s.total_files = s.files_to_process.length)
    ∧ (s.status = ProcessingStatus.completed → s.progress = 1) := by
  have hinv := StateInv_reachable h
  exact ⟨fun hp => hinv.1 (Or.inr hp), hinv.2⟩

theorem C5_processing_invariant_witness :
    ((run_ticks [(env0, ["a.txt", "b.txt"])]
        (start_processing env0 {} ["a.txt", "b.txt"]).2).status
        = ProcessingStatus.processing →
      (run_ticks [(env0, ["a.txt", "b.txt"])]
        (start_processing env0 {} ["a.txt", "b.txt"]).2).current_file_index
        ≤ (run_ticks [(env0, ["a.txt", "b.txt"])]
            (start_processing env0 {} ["a.txt", "b.txt"]).2).total_files
      ∧ (run_ticks [(env0, ["a.txt", "b.txt"])]
          (start_processing env0 {} ["a.txt", "b.txt"]).2).total_files
        = (run_ticks [(env0, ["a.txt", "b.txt"])]
            (start_processing env0 {} ["a.txt", "b.txt"]).2).files_to_process.length)
    ∧ ((run_ticks [(env0, ["a.txt", "b.txt"])]
          (start_processing env0 {} ["a.txt", "b.txt"]).2).status
        = ProcessingStatus.completed →
       (run_ticks [(env0, ["a.txt", "b.txt"])]
          (start_processing env0 {} ["a.txt", "b.txt"]).2).progress = 1) :=
  C5_processing_invariant _
    (Reachable.tick env0 ["a.txt", "b.txt"]
      (Reachable.start env0 ["a.txt", "b.txt"] Reachable.init))

/-- A conversation message, from the `{"role": ..., "content": ...}`
dictionaries of `conversation_manager.py`. -/
structure Message where
  role : String
  content : String
deriving DecidableEq

/-- The `ConversationConfig` dataclass with its source defaults:
`max_history_length = 10`, `max_context_length = 6`. -/
structure ConversationConfig where
  max_history_length : Nat := 10
  max_context_length : Nat := 6
deriving DecidableEq

/-- The configuration of the module-level singleton
`conversation_manager = ConversationManager()`, which passes no config
and therefore uses the dataclass defaults. -/
def conversation_manager_config : ConversationConfig := {}

/-- `ConversationManager.should_truncate_history`:
`len(history) > max_history_length`. -/
def should_truncate_history (cfg : ConversationConfig)
    (history : List Message) : Bool :=
  decide (cfg.max_history_length < history.length)

/-- `ConversationManager.truncate_history`: return the history unchanged
when within the limit, else keep the most recent `max_history_length`
messages (`history[-max_history_length:]`). -/
def truncate_history (cfg : ConversationConfig)
    (history : List Message) : List Message :=
  if history.length ≤ cfg.max_history_length then history
  else history.drop (history.length - cfg.max_history_length)

/-- C6 counterexample: at a history of length 12 the code truncates
(`should_truncate_history` is true because 12 > 10), while the claim's
threshold of 15 predicts no truncation (12 > 15 is false). -/
theorem C6_counterexample :
    should_truncate_history conversation_manager_config
      (List.replicate 12 ⟨"user", "hi"⟩) = true
    ∧ ¬ (15 < (List.replicate 12 (⟨"user", "hi"⟩ : Message)).length)
    ∧ (truncate_history conversation_manager_config
        (List.replicate 12 ⟨"user", "hi"⟩)).length = 10 := by decide

/-- C6 (amended): the history threshold of the singleton conversation
manager is 10, not 15: for every history, `should_truncate_history`
returns true if and only if the length exceeds 10; on any longer history
`truncate_history` keeps exactly the newest 10 entries in their original
relative order (a suffix of the input; the oldest entries are dropped),
and on a history within the limit it returns the history unchanged. -/
theorem C6_truncation (h : List Message) :
    (should_truncate_history conversation_manager_config h = true ↔ 10 < h.length)
    ∧ (10 < h.length →
        truncate_history conversation_manager_config h = h.drop (h.length - 10)
        ∧ (truncate_history conversation_manager_config h).length = 10
        ∧ List.IsSuffix (truncate_history conversation_manager_config h) h)
    ∧ (h.length ≤ 10 → truncate_history conversation_manager_config h = h) := by
  have h10 : conversation_manager_config.max_history_length = 10 := rfl
  refine ⟨?_, fun hlong => ?_, fun hshort => ?_⟩
  · simp [should_truncate_history, h10]
  · have heq : truncate_history conversation_manager_config h
        = h.drop (h.length - 10) := by
      unfold truncate_history
      rw [if_neg (by rw [h10]; omega), h10]
    refine ⟨heq, ?_, ?_⟩
    · rw [heq, List.length_drop]; omega
    · rw [heq]; exact List.drop_suffix _ _
  · unfold truncate_history
    rw [if_pos (by rw [h10]; exact hshort)]

theorem C6_truncation_witness :
    (should_truncate_history conversation_manager_config
        (List.replicate 12 ⟨"user", "x"⟩) = true
      ↔ 10 < (List.replicate 12 (⟨"user", "x"⟩ : Message)).length)
    ∧ (10 < (List.replicate 12 (⟨"user", "x"⟩ : Message)).length →
        truncate_history conversation_manager_config
          (List.replicate 12 ⟨"user", "x"⟩)
          = (List.replicate 12 (⟨"user", "x"⟩ : Message)).drop
              ((List.replicate 12 (⟨"user", "x"⟩ : Message)).length - 10)
        ∧ (truncate_history conversation_manager_config
            (List.replicate 12 ⟨"user", "x"⟩)).length = 10
        ∧ List.IsSuffix
            (truncate_history conversation_manager_config
              (List.replicate 12 ⟨"user", "x"⟩))
            (List.replicate 12 ⟨"user", "x"⟩))
    ∧ should_truncate_history conversation_manager_config
        (List.replicate 5 ⟨"user", "x"⟩) = false
    ∧ ((List.replicate 5 (⟨"user", "x"⟩ : Message)).length ≤ 10 →
        truncate_history conversation_manager_config
          (List.replicate 5 ⟨"user", "x"⟩)
          = List.replicate 5 ⟨"user", "x"⟩) :=
  ⟨(C6_truncation (List.replicate 12 ⟨"user", "x"⟩)).1,
   (C6_truncation (List.replicate 12 ⟨"user", "x"⟩)).2.1,
   by
    have hiff := (C6_truncation (List.replicate 5 ⟨"user", "x"⟩)).1
    simp [List.length_replicate] at hiff
    exact hiff,
   (C6_truncation (List.replicate 5 ⟨"user", "x"⟩)).2.2⟩

/-- The parameters of a `RecursiveCharacterTextSplitter` as configured by
`qa_pipeline.py`: chunk size, chunk overlap and the separator priority
list. -/
structure SplitterParams where
  chunk_size : Nat
  chunk_overlap : Nat
  separators : List String
deriving DecidableEq

/-- `get_dynamic_text_splitter`: the step function from total text length
to base chunk size and overlap. -/
def get_dynamic_text_splitter (text_length : Nat) : SplitterParams :=
  if text_length ≤ 5000 then ⟨500, 100, ["\n\n", "\n", " ", ""]⟩
  else if text_length ≤ 20000 then ⟨1000, 200, ["\n\n", "\n", " ", ""]⟩
  else if text_length ≤ 50000 then ⟨1500, 300, ["\n\n", "\n", " ", ""]⟩
  else ⟨2000, 400, ["\n\n", "\n", " ", ""]⟩

/-- Non-overlapping occurrences of a double newline in a character list,
matching Python's `str.count('\n\n')` (greedy left-to-right,
non-overlapping). -/
def count_double_newline : List Char → Nat
  | c1 :: c2 :: rest =>
      if c1 = '\n' ∧ c2 = '\n' then 1 + count_double_newline rest
      else count_double_newline (c2 :: rest)
  | _ => 0

/-- The result of `analyze_document_content`; densities are rationals
standing in for the Python float divisions. -/
structure DocAnalysis where
  total_length : Nat
  avg_page_length : ℚ
  newline_density : ℚ
  paragraph_density : ℚ
  content_type : String
  num_pages : Nat

/-- `analyze_document_content` over the pages' text contents (each page's
`page_content` as its character sequence): total length, newline and
double-newline densities, and the classification as "structured" when the
double-newline density exceeds 0.01, else "continuous". -/
def analyze_document_content (docs : List (List Char)) : DocAnalysis :=
  let total_length := (docs.map List.length).sum
  let avg_page_length : ℚ :=
    if docs = [] then 0 else (total_length : ℚ) / (docs.length : ℚ)
  let newline_density : ℚ :=
    if 0 < total_length then
      (((docs.map (fun d => d.count '\n')).sum : Nat) : ℚ) / (total_length : ℚ)
    else 0
  let paragraph_density : ℚ :=
    if 0 < total_length then
      (((docs.map (fun d => count_double_newline d)).sum : Nat) : ℚ)
        / (total_length : ℚ)
    else 0
  let content_type :=
    if (1 : ℚ)/100 < paragraph_density then "structured" else "continuous"
  ⟨total_length, avg_page_length, newline_density, paragraph_density,
   content_type, docs.length⟩

/-- `get_optimized_text_splitter`: start from the length-based base
parameters; structured content gets the finer separator list and a chunk
size shrunk by 10% (`int(base * 0.9)`, which equals `base * 9 / 10` for
every reachable base size 500/1000/1500/2000); continuous content keeps
the base size and the coarser separator list.  Overlap is never changed.
Returns the splitter parameters together with the chosen chunk size, as
the source returns `(splitter, chunk_size)`. -/
def get_optimized_text_splitter (docs : List (List Char)) : SplitterParams × Nat :=
  let analysis := analyze_document_content docs
  let base := get_dynamic_text_splitter analysis.total_length
  if analysis.content_type = "structured" then
    let chunk_size := base.chunk_size * 9 / 10
    (⟨chunk_size, base.chunk_overlap, ["\n\n", "\n", ". ", " ", ""]⟩, chunk_size)
  else
    (⟨base.chunk_size, base.chunk_overlap, ["\n\n", "\n", " ", ""]⟩,
     base.chunk_size)

lemma count_double_newline_replicate_a (n : Nat) :
    count_double_newline (List.replicate n 'a') = 0 := by
  induction n using Nat.strong_induction_on with
  | _ n ih =>
    match n with
    | 0 => rfl
    | 1 => rfl
    | Nat.succ (Nat.succ m) =>
        rw [List.replicate_succ, List.replicate_succ]
        rw [count_double_newline, if_neg (by decide)]
        rw [← List.replicate_succ]
        exact ih (m + 1) (by omega)

lemma count_double_newline_pairs (k : Nat) (rest : List Char) :
    count_double_newline (List.replicate (2 * k) '\n' ++ rest)
      = k + count_double_newline rest := by
  induction k with
  | zero => simp
  | succ m ih =>
      rw [show 2 * (m + 1) = 2 * m + 1 + 1 by omega]
      rw [List.replicate_succ, List.replicate_succ]
      rw [List.cons_append, List.cons_append]
      rw [count_double_newline, if_pos (by decide)]
      rw [ih]
      omega

lemma analyze_single (d : List Char) :
    (analyze_document_content [d]).total_length = d.length
    ∧ (analyze_document_content [d]).paragraph_density
      = (if 0 < d.length then
          ((count_double_newline d : Nat) : ℚ) / (d.length : ℚ) else 0)
    ∧ (analyze_document_content [d]).content_type
      = (if (1 : ℚ)/100 <
            (if 0 < d.length then
              ((count_double_newline d : Nat) : ℚ) / (d.length : ℚ) else 0)
         then "structured" else "continuous") := by
  refine ⟨?_, ?_, ?_⟩ <;> simp [analyze_document_content]

lemma analyze_low_fields :
    (analyze_document_content [List.replicate 3000 'a']).total_length = 3000
    ∧ (analyze_document_content [List.replicate 3000 'a']).paragraph_density = 0
    ∧ (analyze_document_content [List.replicate 3000 'a']).content_type
        = "continuous" := by
  have hc : count_double_newline (List.replicate 3000 'a') = 0 :=
    count_double_newline_replicate_a 3000
  obtain ⟨a1, a2, a3⟩ := analyze_single (List.replicate 3000 'a')
  rw [List.length_replicate] at a1 a2 a3
  rw [hc] at a2 a3
  norm_num at a2 a3
  exact ⟨a1, a2, a3⟩

lemma analyze_struct_fields :
    (analyze_document_content
        [List.replicate 80 '\n' ++ List.replicate 2920 'a']).total_length = 3000
    ∧ (analyze_document_content
        [List.replicate 80 '\n' ++ List.replicate 2920 'a']).paragraph_density
      = 40 / 3000
    ∧ (analyze_document_content
        [List.replicate 80 '\n' ++ List.replicate 2920 'a']).content_type
      = "structured" := by
  have hc : count_double_newline (List.replicate 80 '\n' ++ List.replicate 2920 'a')
      = 40 := by
    rw [show (80 : Nat) = 2 * 40 by norm_num, count_double_newline_pairs,
      count_double_newline_replicate_a]
  have hlen : (List.replicate 80 '\n' ++ List.replicate 2920 'a').length = 3000 := by
    rw [List.length_append, List.length_replicate, List.length_replicate]
  obtain ⟨a1, a2, a3⟩ :=
    analyze_single (List.replicate 80 '\n' ++ List.replicate 2920 'a')
  rw [hlen] at a1 a2 a3
  rw [hc] at a2 a3
  norm_num at a2 a3
  exact ⟨a1, by rw [a2]; norm_num, a3⟩

/-- C7 counterexample: a 3000-character document with low paragraph
density (no double newline at all) is classified "continuous", so the
base size of 500 is kept — the resulting segment size is 500, not the
claimed 450. -/
theorem C7_counterexample :
    (analyze_document_content [List.replicate 3000 'a']).total_length = 3000
    ∧ (analyze_document_content
        [List.replicate 3000 'a']).paragraph_density ≤ 1/100
    ∧ (get_optimized_text_splitter
        [List.replicate 3000 'a']).1.chunk_size = 500
    ∧ (get_optimized_text_splitter
        [List.replicate 3000 'a']).1.chunk_size ≠ 450
    ∧ (get_optimized_text_splitter
        [List.replicate 3000 'a']).1.chunk_overlap = 100 := by
  obtain ⟨h1, h2, h3⟩ := analyze_low_fields
  have hcs : (get_optimized_text_splitter [List.replicate 3000 'a']).1
      = ⟨500, 100, ["\n\n", "\n", " ", ""]⟩ := by
    simp only [get_optimized_text_splitter, h3, h1]
    norm_num [get_dynamic_text_splitter]
    rw [if_neg (by decide)]
  refine ⟨h1, ?_, ?_, ?_, ?_⟩
  · rw [h2]; norm_num
  · rw [hcs]
  · rw [hcs]; decide
  · rw [hcs]

/-- C7 (amended): chunk size and overlap are the step function of total
length (≤5000 → 500/100, ≤20000 → 1000/200, ≤50000 → 1500/300, else
2000/400); the structure classification shrinks the size by 10%
(`base * 9 / 10`) and never changes the overlap.  For a 3000-character
document the 450 (= 500 × 0.9) size arises when the paragraph density is
high (structured); with low paragraph density the base size 500 is kept,
with overlap 100 either way.  For length 60000 the base is 2000/400
regardless of structure. -/
theorem C7_chunk_parameters :
    (∀ n : Nat,
      (n ≤ 5000 →
        get_dynamic_text_splitter n = ⟨500, 100, ["\n\n", "\n", " ", ""]⟩)
      ∧ (5000 < n → n ≤ 20000 →
        get_dynamic_text_splitter n = ⟨1000, 200, ["\n\n", "\n", " ", ""]⟩)
      ∧ (20000 < n → n ≤ 50000 →
        get_dynamic_text_splitter n = ⟨1500, 300, ["\n\n", "\n", " ", ""]⟩)
      ∧ (50000 < n →
        get_dynamic_text_splitter n = ⟨2000, 400, ["\n\n", "\n", " ", ""]⟩))
    ∧ (∀ docs : List (List Char),
        (get_optimized_text_splitter docs).1.chunk_overlap
          = (get_dynamic_text_splitter
              (analyze_document_content docs).total_length).chunk_overlap
        ∧ ((analyze_document_content docs).content_type = "structured" →
            (get_optimized_text_splitter docs).1.chunk_size
              = (get_dynamic_text_splitter
                  (analyze_document_content docs).total_length).chunk_size * 9 / 10)
        ∧ ((analyze_document_content docs).content_type ≠ "structured" →
            (get_optimized_text_splitter docs).1.chunk_size
              = (get_dynamic_text_splitter
                  (analyze_document_content docs).total_length).chunk_size))
    ∧ (analyze_document_content
        [List.replicate 80 '\n' ++ List.replicate 2920 'a']).total_length = 3000
    ∧ (1 : ℚ)/100 < (analyze_document_content
        [List.replicate 80 '\n' ++ List.replicate 2920 'a']).paragraph_density
    ∧ (get_optimized_text_splitter
        [List.replicate 80 '\n' ++ List.replicate 2920 'a']).1.chunk_size = 450
    ∧ (get_optimized_text_splitter
        [List.replicate 80 '\n' ++ List.replicate 2920 'a']).1.chunk_overlap = 100
    ∧ (get_optimized_text_splitter
        [List.replicate 3000 'a']).1.chunk_size = 500
    ∧ get_dynamic_text_splitter 60000 = ⟨2000, 400, ["\n\n", "\n", " ", ""]⟩ := by
  obtain ⟨hl1, hl2, hl3⟩ := analyze_low_fields
  obtain ⟨hs1, hs2, hs3⟩ := analyze_struct_fields
  have hlow : (get_optimized_text_splitter [List.replicate 3000 'a']).1
      = ⟨500, 100, ["\n\n", "\n", " ", ""]⟩ := by
    simp only [get_optimized_text_splitter, hl3, hl1]
    norm_num [get_dynamic_text_splitter]
    rw [if_neg (by decide)]
  have hstr : (get_optimized_text_splitter
      [List.replicate 80 '\n' ++ List.replicate 2920 'a']).1
      = ⟨450, 100, ["\n\n", "\n", ". ", " ", ""]⟩ := by
    simp only [get_optimized_text_splitter, hs3, hs1]
    norm_num [get_dynamic_text_splitter]
  refine ⟨?_, ?_, hs1, ?_, by rw [hstr], by rw [hstr], by rw [hlow], by decide⟩
  · intro n
    refine ⟨fun h1 => ?_, fun h1 h2 => ?_, fun h1 h2 => ?_, fun h1 => ?_⟩
    · simp [get_dynamic_text_splitter, h1]
    · simp [get_dynamic_text_splitter, Nat.not_le.mpr h1, h2]
    · simp [get_dynamic_text_splitter, Nat.not_le.mpr (show 5000 < n by omega),
        Nat.not_le.mpr h1, h2]
    · simp [get_dynamic_text_splitter, Nat.not_le.mpr (show 5000 < n by omega),
        Nat.not_le.mpr (show 20000 < n by omega), Nat.not_le.mpr h1]
  · intro docs
    by_cases hs : (analyze_document_content docs).content_type = "structured"
    · exact ⟨by simp [get_optimized_text_splitter, hs],
        fun _ => by simp [get_optimized_text_splitter, hs],
        fun hc => absurd hs hc⟩
    · exact ⟨by simp [get_optimized_text_splitter, hs],
        fun hc => absurd hc hs,
        fun _ => by simp [get_optimized_text_splitter, hs]⟩
  · rw [hs2]; norm_num

theorem C7_chunk_parameters_witness :
    get_dynamic_text_splitter 3000 = ⟨500, 100, ["\n\n", "\n", " ", ""]⟩
    ∧ get_dynamic_text_splitter 60000 = ⟨2000, 400, ["\n\n", "\n", " ", ""]⟩
    ∧ (get_optimized_text_splitter [List.replicate 3000 'a']).1.chunk_size
        = (get_dynamic_text_splitter
            (analyze_document_content
              [List.replicate 3000 'a']).total_length).chunk_size :=
  ⟨(C7_chunk_parameters.1 3000).1 (by decide),
   (C7_chunk_parameters.1 60000).2.2.2 (by decide),
   ((C7_chunk_parameters.2.1) [List.replicate 3000 'a']).2.2
     (by rw [analyze_low_fields.2.2]; decide)⟩

end App
